import Mathlib

/-!
A verification development for the windowed sample assembly engine in
`src/training/dataset.py` (class `Dataset`: construction-time artifact cache,
`__getitem__` sample windowing, `__len__`, `collate_fn` batching).

Modelling conventions:
* a 2-D torch tensor is a `Mat α`: a list of rows together with its column
  count (so that `shape[1]` is meaningful even for 0-row tensors);
* feature tensors hold real numbers (`Mat ℝ`), label tensors hold the exact
  rationals parsed from JSON (`Mat ℚ`);
* the on-disk artifact store is a `Disk`: total functions from the recording
  basename (and label channel) to the stored arrays — artifact files are
  assumed present and well-formed, as none of the verified claims concern
  missing-file errors;
* Python slicing `t[a:b]` (negative indices counted from the end, both
  bounds clamped) is `Mat.slice`; Python list indexing with its negative-index
  semantics and `IndexError` is embedded directly in `Dataset.getitem`;
* the in-place mutation `mapping.feature.onset_frame = 0` performed by
  `__getitem__` is modelled by returning the updated dataset state next to
  the sample.
-/

namespace HFT

/-- A 2-D tensor: list of rows plus the column count (`shape[1]`). -/
structure Mat (α : Type) where
  data : List (List α)
  cols : Nat
deriving DecidableEq

/-- Number of rows (`shape[0]`). -/
def Mat.nrows {α : Type} (m : Mat α) : Nat := m.data.length

/-- The tensor shape `(shape[0], shape[1])`. -/
def Mat.shape {α : Type} (m : Mat α) : Nat × Nat := (m.nrows, m.cols)

/-- `torch.zeros(n, c)` followed by `fill_(v)`: `n` rows of `c` copies of `v`. -/
def fullMat {α : Type} (n c : Nat) (v : α) : Mat α :=
  ⟨List.replicate n (List.replicate c v), c⟩

/-- `torch.cat([m1, m2], dim=0)` (the sources always concatenate matrices of
equal column count, and the result takes the first operand's column count). -/
def Mat.vcat {α : Type} (m1 m2 : Mat α) : Mat α := ⟨m1.data ++ m2.data, m1.cols⟩

/-- Effective bound of a Python slice index `i` for a sequence of length
`len`: negative indices count from the end, and both directions clamp. -/
def pyIndex (len : Nat) (i : Int) : Nat :=
  if i < 0 then (i + len).toNat else min i.toNat len

/-- Python slice `l[a:b]` on a list. -/
def pySlice {α : Type} (l : List α) (a b : Int) : List α :=
  (l.take (pyIndex l.length b)).drop (pyIndex l.length a)

/-- Row slice `t[a:b]` on a 2-D tensor. -/
def Mat.slice {α : Type} (m : Mat α) (a b : Int) : Mat α :=
  ⟨pySlice m.data a b, m.cols⟩

/-- `t.T` for a 2-D real tensor (rows become columns). -/
def Mat.transpose (m : Mat ℝ) : Mat ℝ :=
  ⟨(List.range m.cols).map (fun j => m.data.map (fun r => r.getD j 0)), m.data.length⟩

/-- Elementwise map (used for the `.long()` dtype cast). -/
def Mat.emap {α β : Type} (f : α → β) (m : Mat α) : Mat β :=
  ⟨m.data.map (List.map f), m.cols⟩

/-- Truncation toward zero of a rational, the rounding `.long()` applies. -/
def ratTrunc (q : ℚ) : ℤ := if 0 ≤ q then q.floor else -((-q).floor)

/-- `.float()` on an exactly-represented label tensor: a dtype cast that
preserves the stored values. -/
def Mat.toFloat (m : Mat ℚ) : Mat ℚ := m

/-- Per-recording metadata (`Metadata` in the source; provenance only, not
consumed by the windower). -/
structure Metadata where
  canonical_composer : String
  canonical_title : String
  split : String
  year : Int
  midi_filename : String
  audio_filename : String
  duration : ℚ

/-- A half-open frame span (`FrameInfomation` in the source, field names kept,
including the source's spelling). -/
structure FrameInfomation where
  onset_frame : Int
  offset_frame : Int
deriving DecidableEq

/-- One catalogue entry (`DatasetItem` in the source). -/
structure DatasetItem where
  basename : String
  feature : FrameInfomation
  label : FrameInfomation
deriving DecidableEq

/-- Modelled from the spec: `DatasetConfig` lives in `training/config.py`,
which is not part of the sources here; per the spec it carries (at least)
the positive scalar `feature.log_offset`. -/
structure FeatureConfig where
  log_offset : ℝ

/-- Modelled from the spec: the dataset configuration object. -/
structure DatasetConfig where
  feature : FeatureConfig

/-- Modelled from the spec: `LABELS` is imported from `preprocess/midi.py`,
which is not part of the sources here; per the spec the label channels are
exactly `onset`, `offset`, `mpe`, `velocity`. -/
def LABELS : List String := ["onset", "offset", "mpe", "velocity"]

/-- The on-disk artifact store: `features/<basename>.pt` and
`labels/<basename>.<channel>.json`. -/
structure Disk where
  featureFile : String → Mat ℝ
  labelFile : String → String → Mat ℚ

/-- The 5-tuple returned by `__getitem__`. -/
structure WindowedSample where
  spec : Mat ℝ
  onset : Mat ℚ
  offset : Mat ℚ
  mpe : Mat ℚ
  velocity : Mat ℤ

/-- The dataset object's state after `__init__`: the parsed catalogue, the
configuration, `num_frames`, and the two eagerly populated caches
(`self.features`, `self.labels`, dictionaries keyed by basename). -/
structure Dataset where
  datamapping : List DatasetItem
  config : DatasetConfig
  num_frames : Nat
  features : String → Option (Mat ℝ)
  labels : String → Option (List (String × Mat ℚ))

/-- The label-channel dictionary loaded for one recording (`data` in the
`__init__` loop): one entry per channel in `LABELS`. -/
def labelBundle (dsk : Disk) (b : String) : List (String × Mat ℚ) :=
  LABELS.map (fun l => (l, dsk.labelFile b l))

/-- One iteration of the `__init__` cache-population loop: skip a basename
that is already cached, otherwise load its feature artifact and its four
label artifacts (counted as one load of that recording). -/
def initStep (dsk : Disk)
    (acc : (String → Option (Mat ℝ)) × (String → Option (List (String × Mat ℚ))) × Nat)
    (m : DatasetItem) :
    (String → Option (Mat ℝ)) × (String → Option (List (String × Mat ℚ))) × Nat :=
  if (acc.1 m.basename).isSome then acc
  else
    (fun b => if b = m.basename then some (dsk.featureFile m.basename) else acc.1 b,
     fun b => if b = m.basename then some (labelBundle dsk m.basename) else acc.2.1 b,
     acc.2.2 + 1)

/-- The `__init__` cache-population loop over the whole catalogue, starting
from empty caches; the third component counts how many recordings were
loaded from disk. -/
def initCaches (dsk : Disk) (ms : List DatasetItem) :
    (String → Option (Mat ℝ)) × (String → Option (List (String × Mat ℚ))) × Nat :=
  ms.foldl (initStep dsk) (fun _ => none, fun _ => none, 0)

/-- `Dataset.__init__`: store the catalogue, configuration and `num_frames`,
and eagerly populate both caches. -/
def Dataset.make (dsk : Disk) (ms : List DatasetItem) (cfg : DatasetConfig)
    (nf : Nat) : Dataset :=
  { datamapping := ms
    config := cfg
    num_frames := nf
    features := (initCaches dsk ms).1
    labels := (initCaches dsk ms).2.1 }

/-- How many distinct recordings `__init__` loads from disk. -/
def loadCount (dsk : Disk) (ms : List DatasetItem) : Nat :=
  (initCaches dsk ms).2.2

/-- `zero_value = torch.log(torch.tensor(config.feature.log_offset))`. -/
noncomputable def zeroValue (cfg : DatasetConfig) : ℝ := Real.log cfg.feature.log_offset

/-- The feature-array half of the negative-onset branch: prepend
`-onset_frame` rows filled with the silence value. -/
def correctMat (zv : ℝ) (feature : Mat ℝ) (fi : FrameInfomation) : Mat ℝ :=
  if fi.onset_frame < 0 then
    Mat.vcat (fullMat (-fi.onset_frame).toNat feature.cols zv) feature
  else feature

/-- The span half of the negative-onset branch. The source assigns
`mapping.feature.onset_frame = 0` first and only afterwards assigns
`mapping.feature.offset_frame = offset_frame - onset_frame`, so the
subtrahend is the already-overwritten onset, i.e. `0`. -/
def correctSpan (fi : FrameInfomation) : FrameInfomation :=
  if fi.onset_frame < 0 then
    { onset_frame := 0, offset_frame := fi.offset_frame - 0 }
  else fi

/-- The feature slice `feature[onset_frame:offset_frame]` taken from the
(possibly silence-prepended) feature array, using the (possibly mutated)
span. -/
noncomputable def slicedFeature (dsk : Disk) (cfg : DatasetConfig) (m : DatasetItem) : Mat ℝ :=
  (correctMat (zeroValue cfg) (dsk.featureFile m.basename) m.feature).slice
    (correctSpan m.feature).onset_frame (correctSpan m.feature).offset_frame

/-- Right-padding to `nf` rows with the fill value `v`: matches both the
feature padding (`v` = silence value) and the label padding (`v = 0`);
tensors already at least `nf` rows long pass through unmodified. -/
def padRows {α : Type} (nf : Nat) (v : α) (m : Mat α) : Mat α :=
  if m.nrows < nf then Mat.vcat m (fullMat (nf - m.nrows) m.cols v) else m

/-- The fully assembled (sliced then padded) feature tensor, before the
transpose. -/
noncomputable def paddedFeature (dsk : Disk) (cfg : DatasetConfig) (nf : Nat)
    (m : DatasetItem) : Mat ℝ :=
  padRows nf (zeroValue cfg) (slicedFeature dsk cfg m)

/-- The `labels` dictionary of `__getitem__` after the padding loop: each
channel artifact is re-read from disk and zero-padded to `nf` rows. The
source never slices these by the entry's label span. -/
def labelPart (dsk : Disk) (nf : Nat) (b : String) : List (String × Mat ℚ) :=
  (LABELS.map (fun l => (l, dsk.labelFile b l))).map
    (fun p => (p.1, padRows nf (0 : ℚ) p.2))

/-- The body of `__getitem__` once the catalogue entry has been resolved:
returns the sample 5-tuple and the (possibly mutated) catalogue entry. -/
noncomputable def getitemCore (dsk : Disk) (cfg : DatasetConfig) (nf : Nat)
    (m : DatasetItem) : WindowedSample × DatasetItem :=
  ({ spec := (paddedFeature dsk cfg nf m).transpose
     onset := ((labelPart dsk nf m.basename).lookup "onset").getD ⟨[], 0⟩
     offset := ((labelPart dsk nf m.basename).lookup "offset").getD ⟨[], 0⟩
     mpe := (((labelPart dsk nf m.basename).lookup "mpe").getD ⟨[], 0⟩).toFloat
     velocity := (((labelPart dsk nf m.basename).lookup "velocity").getD ⟨[], 0⟩).emap ratTrunc },
   { m with feature := correctSpan m.feature })

/-- Errors surfaced by `__getitem__`. -/
inductive DatasetError
  | indexError
deriving DecidableEq

/-- Effective index of Python list indexing `l[idx]`: a negative index has
the length added once; the result is in range iff it then lies in
`[0, len)`. -/
def pyEffIndex (len : Nat) (idx : Int) : Int :=
  if idx < 0 then idx + len else idx

/-- `Dataset.__getitem__`: resolve the catalogue entry (Python list
indexing, `IndexError` when out of range), assemble the windowed sample,
and persist the negative-onset span mutation into the stored catalogue. -/
noncomputable def Dataset.getitem (dsk : Disk) (ds : Dataset) (idx : Int) :
    Except DatasetError (WindowedSample × Dataset) :=
  match ds.datamapping.get? (pyEffIndex ds.datamapping.length idx).toNat with
  | some m =>
    if pyEffIndex ds.datamapping.length idx < 0 then .error .indexError
    else
      .ok ((getitemCore dsk ds.config ds.num_frames m).1,
        { ds with
          datamapping := ds.datamapping.set
            (pyEffIndex ds.datamapping.length idx).toNat
            (getitemCore dsk ds.config ds.num_frames m).2 })
  | none => .error .indexError

/-- `Dataset.__len__`. -/
def Dataset.len (ds : Dataset) : Nat := ds.datamapping.length

/-- Errors surfaced by `collate_fn`: the `ValueError` of unpacking
`zip(*batch)` on an empty batch, and the shape-mismatch `RuntimeError` of
`torch.stack`. -/
inductive CollateError
  | valueError
  | shapeMismatch
deriving DecidableEq

/-- A stacked batch tensor: the per-sample tensors along a new leading
batch dimension. -/
structure Batched (α : Type) where
  items : List (Mat α)
deriving DecidableEq

/-- `torch.stack`: requires a non-empty list of identically shaped
tensors. -/
def stack {α : Type} (ms : List (Mat α)) : Except CollateError (Batched α) :=
  match ms with
  | [] => .error .valueError
  | m :: rest =>
    if rest.all (fun mm => decide (mm.shape = m.shape)) then .ok ⟨m :: rest⟩
    else .error .shapeMismatch

/-- The batched 5-tuple returned by `collate_fn`. -/
structure BatchedSample where
  specs : Batched ℝ
  onsets : Batched ℚ
  offsets : Batched ℚ
  mpes : Batched ℚ
  velocities : Batched ℤ

/-- `Dataset.collate_fn`: unzip the batch (`zip(*batch)` raises `ValueError`
on an empty batch) and stack each of the five positions. -/
def collate_fn (batch : List WindowedSample) : Except CollateError BatchedSample :=
  match batch with
  | [] => .error .valueError
  | _ =>
    match stack (batch.map (·.spec)) with
    | .error e => .error e
    | .ok specs =>
      match stack (batch.map (·.onset)) with
      | .error e => .error e
      | .ok onsets =>
        match stack (batch.map (·.offset)) with
        | .error e => .error e
        | .ok offsets =>
          match stack (batch.map (·.mpe)) with
          | .error e => .error e
          | .ok mpes =>
            match stack (batch.map (·.velocity)) with
            | .error e => .error e
            | .ok velocities => .ok ⟨specs, onsets, offsets, mpes, velocities⟩

/-- The five per-tensor shapes of one sample. -/
def WindowedSample.shapes (s : WindowedSample) :
    (Nat × Nat) × (Nat × Nat) × (Nat × Nat) × (Nat × Nat) × (Nat × Nat) :=
  (s.spec.shape, s.onset.shape, s.offset.shape, s.mpe.shape, s.velocity.shape)

/-- Modelled from the spec: the cache-resolving view of the artifact store
("resolve ... from the Artifact Cache"). The source's `__getitem__` always
re-reads from disk; this disk view resolves the same paths through the
caches populated by `__init__` instead. -/
def cachedDisk (ds : Dataset) : Disk :=
  { featureFile := fun b => (ds.features b).getD ⟨[], 0⟩
    labelFile := fun b l => (((ds.labels b).getD []).lookup l).getD ⟨[], 0⟩ }

/-- Modelled from the spec: sample resolution through the Artifact Cache,
the fallback-free twin of `Dataset.getitem`. -/
noncomputable def Dataset.getitemCached (ds : Dataset) (idx : Int) :
    Except DatasetError (WindowedSample × Dataset) :=
  Dataset.getitem (cachedDisk ds) ds idx

/-! Concrete fixtures used by the evaluation theorems and witnesses below. -/

/-- Configuration with `log_offset = 1`, whose silence value is `log 1 = 0`. -/
def exCfg1 : DatasetConfig := ⟨⟨1⟩⟩

/-- An 8-frame, 1-bin feature recording with rows 10..17. -/
def exDisk1 : Disk :=
  { featureFile := fun _ => ⟨[[10], [11], [12], [13], [14], [15], [16], [17]], 1⟩
    labelFile := fun _ _ => ⟨[[0], [0]], 1⟩ }

/-- A catalogue entry with negative feature onset: feature span `[-3, 5)`. -/
def exItem1 : DatasetItem := ⟨"rec", ⟨-3, 5⟩, ⟨0, 5⟩⟩

/-- Dataset state holding just `exItem1`, `num_frames = 128`. -/
def exDs1 : Dataset := ⟨[exItem1], exCfg1, 128, fun _ => none, fun _ => none⟩

/-- Label artifacts distinguishing channels: the `onset` channel of every
recording is the 2-row array `[[1],[2]]`, the other channels `[[0],[0]]`. -/
def exDisk2 : Disk :=
  { featureFile := fun _ => ⟨[[0]], 1⟩
    labelFile := fun _ l => if l = "onset" then ⟨[[1], [2]], 1⟩ else ⟨[[0], [0]], 1⟩ }

/-- A catalogue entry whose label span `[1, 2)` selects only the second label
row, with a non-negative feature span. -/
def exItem2 : DatasetItem := ⟨"rec", ⟨0, 1⟩, ⟨1, 2⟩⟩

/-- Dataset state holding just `exItem2`, `num_frames = 3`. -/
def exDs2 : Dataset := ⟨[exItem2], exCfg1, 3, fun _ => none, fun _ => none⟩

/-- A concrete 1-frame windowed sample for the batching witness. -/
def exSample7 : WindowedSample :=
  ⟨⟨[[0]], 1⟩, ⟨[[0]], 1⟩, ⟨[[0]], 1⟩, ⟨[[0]], 1⟩, ⟨[[0]], 1⟩⟩

/-- Catalogue entry on recording `rec` with label span `[0, 2)`. -/
def exItem10a : DatasetItem := ⟨"rec", ⟨0, 1⟩, ⟨0, 2⟩⟩

/-- Catalogue entry on the same recording with a different label span `[5, 9)`. -/
def exItem10b : DatasetItem := ⟨"rec", ⟨1, 2⟩, ⟨5, 9⟩⟩

/-- Dataset state with two entries naming the same recording but different
label spans. -/
def exDs10 : Dataset := ⟨[exItem10a, exItem10b], exCfg1, 3, fun _ => none, fun _ => none⟩

/-- Invariant of the `__init__` population loop: every populated cache entry
holds exactly the on-disk artifact bundle for its basename, and the two
caches are populated in lockstep. -/
def CacheInv (dsk : Disk) (feats : String → Option (Mat ℝ))
    (labs : String → Option (List (String × Mat ℚ))) : Prop :=
  ∀ b, (feats b = none ∧ labs b = none)
    ∨ (feats b = some (dsk.featureFile b) ∧ labs b = some (labelBundle dsk b))

/-! Helper lemmas. -/

theorem set_get?_eq {α : Type} (l : List α) (n : Nat) (a : α)
    (h : l.get? n = some a) : l.set n a = l := by
  induction l generalizing n with
  | nil => simp at h
  | cons x xs ih =>
    cases n with
    | zero => simp at h; simp [h]
    | succ k => simp at h ⊢; exact ih k (by rw [List.get?_eq_getElem?]; exact h)

/-- Unfolding `__getitem__` at a non-negative in-range index: the sample is
assembled by `getitemCore` and the (possibly corrected) entry is written back
into the stored catalogue. -/
theorem getitem_eq_ok (dsk : Disk) (ds : Dataset) (idx : Int) (m : DatasetItem)
    (h0 : 0 ≤ idx) (hm : ds.datamapping.get? idx.toNat = some m) :
    Dataset.getitem dsk ds idx
      = .ok ((getitemCore dsk ds.config ds.num_frames m).1,
          { ds with
            datamapping := ds.datamapping.set idx.toNat
              (getitemCore dsk ds.config ds.num_frames m).2 }) := by
  unfold Dataset.getitem
  have he : pyEffIndex ds.datamapping.length idx = idx := by
    unfold pyEffIndex
    rw [if_neg (by omega)]
  rw [he, hm]
  exact if_neg (not_lt.mpr h0)

theorem stack_ok_of_uniform {α : Type} (m : Mat α) (rest : List (Mat α))
    (h : ∀ mm ∈ rest, mm.shape = m.shape) :
    stack (m :: rest) = .ok ⟨m :: rest⟩ := by
  have hc : (rest.all fun mm => decide (mm.shape = m.shape)) = true := by
    rw [List.all_eq_true]
    intro x hx
    simp [h x hx]
  simp only [stack, hc, if_true]

theorem stack_cases {α : Type} (m : Mat α) (rest : List (Mat α)) :
    (stack (m :: rest) = .ok ⟨m :: rest⟩ ∧ ∀ mm ∈ rest, mm.shape = m.shape)
      ∨ stack (m :: rest) = .error .shapeMismatch := by
  by_cases h : ∀ mm ∈ rest, mm.shape = m.shape
  · exact Or.inl ⟨stack_ok_of_uniform m rest h, h⟩
  · right
    have hc : (rest.all fun mm => decide (mm.shape = m.shape)) = false := by
      rcases hcc : rest.all fun mm => decide (mm.shape = m.shape) with _ | _
      · rfl
      · exfalso
        rw [List.all_eq_true] at hcc
        exact h fun mm hm => by simpa using hcc mm hm
    simp [stack, hc]

theorem collate_fn_cons (s0 : WindowedSample) (rest : List WindowedSample) :
    collate_fn (s0 :: rest)
      = match stack (s0.spec :: rest.map (·.spec)) with
        | .error e => .error e
        | .ok specs =>
          match stack (s0.onset :: rest.map (·.onset)) with
          | .error e => .error e
          | .ok onsets =>
            match stack (s0.offset :: rest.map (·.offset)) with
            | .error e => .error e
            | .ok offsets =>
              match stack (s0.mpe :: rest.map (·.mpe)) with
              | .error e => .error e
              | .ok mpes =>
                match stack (s0.velocity :: rest.map (·.velocity)) with
                | .error e => .error e
                | .ok velocities => .ok ⟨specs, onsets, offsets, mpes, velocities⟩ := rfl

theorem initFold_count (dsk : Disk) :
    ∀ (ms : List DatasetItem) (feats : String → Option (Mat ℝ))
      (labs : String → Option (List (String × Mat ℚ))) (n : Nat),
      (ms.foldl (initStep dsk) (feats, labs, n)).2.2
        = n + ((ms.map (·.basename)).toFinset.filter
            (fun b => (feats b).isNone = true)).card := by
  intro ms
  induction ms with
  | nil => simp
  | cons m rest ih =>
    intro feats labs n
    simp only [List.foldl_cons, List.map_cons, List.toFinset_cons]
    by_cases hmem : (feats m.basename).isSome
    · rw [show initStep dsk (feats, labs, n) m = (feats, labs, n) from by
        simp [initStep, hmem]]
      rw [ih feats labs n]
      congr 1
      rw [Finset.filter_insert, if_neg (by
        simp only [Option.isNone_iff_eq_none]
        exact Option.ne_none_iff_isSome.mpr hmem)]
    · rw [show initStep dsk (feats, labs, n) m
          = (fun b => if b = m.basename then some (dsk.featureFile m.basename) else feats b,
             fun b => if b = m.basename then some (labelBundle dsk m.basename) else labs b,
             n + 1) from by simp [initStep, hmem]]
      rw [ih _ _ (n + 1)]
      have hfilt : (rest.map (·.basename)).toFinset.filter
            (fun b => ((if b = m.basename then some (dsk.featureFile m.basename)
              else feats b).isNone = true))
          = ((rest.map (·.basename)).toFinset.filter
              (fun b => (feats b).isNone = true)).erase m.basename := by
        ext b
        simp only [Finset.mem_filter, Finset.mem_erase]
        by_cases hb : b = m.basename
        · subst hb
          simp
        · simp [hb]
      rw [hfilt]
      rw [Finset.filter_insert, if_pos (by
        rw [Option.isNone_iff_eq_none]
        exact Option.not_isSome_iff_eq_none.mp hmem)]
      set S := (rest.map (·.basename)).toFinset.filter (fun b => (feats b).isNone = true)
      by_cases hS : m.basename ∈ S
      · rw [Finset.insert_eq_self.mpr hS]
        have := Finset.card_erase_add_one hS
        omega
      · rw [Finset.card_insert_of_not_mem hS, Finset.erase_eq_of_not_mem hS]
        omega

theorem initFold_inv (dsk : Disk) :
    ∀ (ms : List DatasetItem) (feats : String → Option (Mat ℝ))
      (labs : String → Option (List (String × Mat ℚ))) (n : Nat),
      CacheInv dsk feats labs →
      CacheInv dsk (ms.foldl (initStep dsk) (feats, labs, n)).1
        (ms.foldl (initStep dsk) (feats, labs, n)).2.1 := by
  intro ms
  induction ms with
  | nil => intro feats labs n h; simpa using h
  | cons m rest ih =>
    intro feats labs n h
    simp only [List.foldl_cons]
    by_cases hmem : (feats m.basename).isSome
    · rw [show initStep dsk (feats, labs, n) m = (feats, labs, n) from by
        simp [initStep, hmem]]
      exact ih feats labs n h
    · rw [show initStep dsk (feats, labs, n) m
          = (fun b => if b = m.basename then some (dsk.featureFile m.basename) else feats b,
             fun b => if b = m.basename then some (labelBundle dsk m.basename) else labs b,
             n + 1) from by simp [initStep, hmem]]
      apply ih
      intro b
      by_cases hb : b = m.basename
      · subst hb
        right
        simp
      · simp only [if_neg hb]
        exact h b

theorem initFold_isSome_mono (dsk : Disk) :
    ∀ (ms : List DatasetItem) (feats : String → Option (Mat ℝ))
      (labs : String → Option (List (String × Mat ℚ))) (n : Nat) (b : String),
      (feats b).isSome →
      ((ms.foldl (initStep dsk) (feats, labs, n)).1 b).isSome := by
  intro ms
  induction ms with
  | nil => intro feats labs n b h; simpa using h
  | cons m rest ih =>
    intro feats labs n b h
    simp only [List.foldl_cons]
    by_cases hmem : (feats m.basename).isSome
    · rw [show initStep dsk (feats, labs, n) m = (feats, labs, n) from by
        simp [initStep, hmem]]
      exact ih feats labs n b h
    · rw [show initStep dsk (feats, labs, n) m
          = (fun b => if b = m.basename then some (dsk.featureFile m.basename) else feats b,
             fun b => if b = m.basename then some (labelBundle dsk m.basename) else labs b,
             n + 1) from by simp [initStep, hmem]]
      apply ih
      by_cases hb : b = m.basename
      · subst hb
        simp
      · simp only [if_neg hb]
        exact h

theorem initFold_covers (dsk : Disk) :
    ∀ (ms : List DatasetItem) (feats : String → Option (Mat ℝ))
      (labs : String → Option (List (String × Mat ℚ))) (n : Nat) (m : DatasetItem),
      m ∈ ms →
      ((ms.foldl (initStep dsk) (feats, labs, n)).1 m.basename).isSome := by
  intro ms
  induction ms with
  | nil => intro feats labs n m h; simp at h
  | cons m0 rest ih =>
    intro feats labs n m h
    simp only [List.foldl_cons]
    rcases List.mem_cons.mp h with rfl | hrest
    · by_cases hmem : (feats m.basename).isSome
      · rw [show initStep dsk (feats, labs, n) m = (feats, labs, n) from by
          simp [initStep, hmem]]
        exact initFold_isSome_mono dsk rest feats labs n m.basename hmem
      · rw [show initStep dsk (feats, labs, n) m
            = (fun b => if b = m.basename then some (dsk.featureFile m.basename) else feats b,
               fun b => if b = m.basename then some (labelBundle dsk m.basename) else labs b,
               n + 1) from by simp [initStep, hmem]]
        apply initFold_isSome_mono
        simp
    · rcases h2 : initStep dsk (feats, labs, n) m0 with ⟨f2, l2, n2⟩
      exact ih f2 l2 n2 m hrest

/-- The caches populated by `__init__` hold exactly the on-disk artifacts of
every referenced recording. -/
theorem make_cache_eq (dsk : Disk) (ms : List DatasetItem) (cfg : DatasetConfig)
    (nf : Nat) (b : String) (hb : b ∈ ms.map (·.basename)) :
    (Dataset.make dsk ms cfg nf).features b = some (dsk.featureFile b)
    ∧ (Dataset.make dsk ms cfg nf).labels b = some (labelBundle dsk b) := by
  obtain ⟨m, hm, rfl⟩ := List.mem_map.mp hb
  have hinv : CacheInv dsk (initCaches dsk ms).1 (initCaches dsk ms).2.1 := by
    apply initFold_inv
    intro b
    left
    exact ⟨rfl, rfl⟩
  have hsome : ((initCaches dsk ms).1 m.basename).isSome :=
    initFold_covers dsk ms _ _ 0 m hm
  rcases hinv m.basename with ⟨hnone, _⟩ | ⟨hf, hl⟩
  · rw [hnone] at hsome
    simp at hsome
  · exact ⟨hf, hl⟩

theorem labelBundle_lookup (dsk : Disk) (b : String) (l : String) (hl : l ∈ LABELS) :
    (labelBundle dsk b).lookup l = some (dsk.labelFile b l) := by
  rcases hl with _ | ⟨_, _ | ⟨_, _ | ⟨_, _ | ⟨_, h⟩⟩⟩⟩
  · rfl
  · rfl
  · rfl
  · rfl
  · cases h

/-- `getitemCore` depends on the artifact store only through the feature
array and the four label-channel arrays of the entry's recording. -/
theorem getitemCore_congr (dsk1 dsk2 : Disk) (cfg : DatasetConfig) (nf : Nat)
    (m : DatasetItem)
    (hf : dsk1.featureFile m.basename = dsk2.featureFile m.basename)
    (hl : ∀ l ∈ LABELS, dsk1.labelFile m.basename l = dsk2.labelFile m.basename l) :
    getitemCore dsk1 cfg nf m = getitemCore dsk2 cfg nf m := by
  have hlp : labelPart dsk1 nf m.basename = labelPart dsk2 nf m.basename := by
    unfold labelPart
    congr 1
    exact List.map_congr_left (fun l hlm => by rw [hl l hlm])
  unfold getitemCore paddedFeature slicedFeature
  rw [hf, hlp]

/-! The claims. -/

/-- Claim C1 (code bug): the claim states that for a sample with
`feature_span = [-3, 5)` and `num_frames = 128` the output feature tensor is
3 silence rows, then source rows `[0:5)`, then 120 silence rows, because the
corrected span end is `end_frame - original_start_frame`. The code instead
zeroes `onset_frame` before subtracting it, so the slice stays `[0:5)` of the
prepended array: the actual output is 3 silence rows, then source rows
`[0:2)`, then 123 silence rows — which this theorem evaluates, and which
differs from the claimed output. -/
theorem C1_negative_onset_span_bug :
    (Dataset.getitem exDisk1 exDs1 0).toOption.map (fun r => r.1.spec)
      = some ((paddedFeature exDisk1 exCfg1 128 exItem1).transpose)
    ∧ paddedFeature exDisk1 exCfg1 128 exItem1
        = Mat.vcat (Mat.vcat (fullMat 3 1 (zeroValue exCfg1)) ⟨[[10], [11]], 1⟩)
            (fullMat 123 1 (zeroValue exCfg1))
    ∧ paddedFeature exDisk1 exCfg1 128 exItem1
        ≠ Mat.vcat (Mat.vcat (fullMat 3 1 (zeroValue exCfg1))
              ⟨[[10], [11], [12], [13], [14]], 1⟩)
            (fullMat 120 1 (zeroValue exCfg1)) := by
  refine ⟨rfl, rfl, ?_⟩
  intro h
  have h5 : ([Real.log 1] : List ℝ) = [(12 : ℝ)] :=
    congrArg (fun mm : Mat ℝ => mm.data.getD 5 ([] : List ℝ)) h
  injection h5 with h6 _
  rw [Real.log_one] at h6
  norm_num at h6

/-- Claim C2 (code bug): the claim states the label tensor is the rows
`label_span.start_frame : label_span.end_frame` of the channel artifact,
zero-padded to exactly `num_frames` rows. The code never slices labels by the
label span: with onset artifact `[[1],[2]]`, label span `[1, 2)` and
`num_frames = 3`, it returns the whole artifact zero-padded, `[[1],[2],[0]]`,
which this theorem evaluates, and which differs from the claimed
`[[2],[0],[0]]`. -/
theorem C2_label_span_ignored_bug :
    (Dataset.getitem exDisk2 exDs2 0).toOption.map (fun r => r.1.onset)
      = some (⟨[[1], [2], [0]], 1⟩ : Mat ℚ)
    ∧ (⟨[[1], [2], [0]], 1⟩ : Mat ℚ) ≠ (⟨[[2], [0], [0]], 1⟩ : Mat ℚ) := by
  exact ⟨by decide, by decide⟩

/-- Claim C3 (counterexample): `get_sample` is claimed to write no shared
state of the dataset object; but on a sample with negative feature onset the
stored catalogue entry is mutated in place, so the state returned by
`getitem` differs from the input state. -/
theorem C3_shared_state_counterexample :
    (Dataset.getitem exDisk1 exDs1 0).toOption.map (fun r => r.2.datamapping)
      ≠ some exDs1.datamapping := by
  decide

/-- Claim C3 (amended): when the entry's feature `onset_frame` is
non-negative, `get_sample` leaves the dataset state untouched (the returned
state is the input state), so repeated calls on that index return equal
results; the unrestricted claim fails because a negative onset mutates the
stored catalogue entry. -/
theorem C3_no_shared_write_when_onset_nonneg (dsk : Disk) (ds : Dataset)
    (idx : Int) (m : DatasetItem)
    (h0 : 0 ≤ idx) (hm : ds.datamapping.get? idx.toNat = some m)
    (hpos : 0 ≤ m.feature.onset_frame) :
    ∃ s, Dataset.getitem dsk ds idx = .ok (s, ds) := by
  refine ⟨(getitemCore dsk ds.config ds.num_frames m).1, ?_⟩
  rw [getitem_eq_ok dsk ds idx m h0 hm]
  have hcs : correctSpan m.feature = m.feature := by
    unfold correctSpan
    rw [if_neg (by omega)]
  have hm2 : (getitemCore dsk ds.config ds.num_frames m).2 = m := by
    show ({ m with feature := correctSpan m.feature } : DatasetItem) = m
    rw [hcs]
  rw [hm2, set_get?_eq ds.datamapping idx.toNat m hm]

/-- Claim C3 witness: a concrete index with non-negative feature onset on
which `get_sample` returns the dataset state unchanged. -/
theorem C3_witness : ∃ s, Dataset.getitem exDisk2 exDs2 0 = .ok (s, exDs2) :=
  C3_no_shared_write_when_onset_nonneg exDisk2 exDs2 0 exItem2
    (by decide) (by decide) (by decide)

/-- Claim C4 (counterexample): the claim states `get_sample(idx)` raises
`IndexError` whenever `idx < 0`; but on a one-entry catalogue the index `-1`
succeeds (Python list indexing remaps it to the last entry). -/
theorem C4_negative_index_counterexample :
    (Dataset.getitem exDisk1 exDs1 (-1)).isOk = true := by
  decide

/-- Claim C4 (amended): `get_sample(idx)` raises `IndexError` if and only if
`idx < -len` or `idx ≥ len`; an index in `[-len, 0)` is not an error but is
remapped Python-style to `idx + len`. -/
theorem C4_index_error_iff (dsk : Disk) (ds : Dataset) (idx : Int) :
    (Dataset.getitem dsk ds idx = .error .indexError
      ↔ (idx < -(ds.len : Int) ∨ (ds.len : Int) ≤ idx))
    ∧ (-(ds.len : Int) ≤ idx → idx < 0 →
        Dataset.getitem dsk ds idx = Dataset.getitem dsk ds (idx + ds.len)) := by
  constructor
  · unfold Dataset.getitem Dataset.len pyEffIndex
    by_cases hneg : idx < 0
    · rw [if_pos hneg]
      by_cases hlow : idx + ds.datamapping.length < 0
      · rcases hget : ds.datamapping.get? (idx + ds.datamapping.length).toNat with _ | m
        · simp only [hget]
          constructor
          · intro _
            left
            omega
          · intro _
            trivial
        · simp only [hget, if_pos hlow]
          constructor
          · intro _
            left
            omega
          · intro _
            trivial
      · have hlt : (idx + ds.datamapping.length).toNat < ds.datamapping.length := by omega
        rw [List.get?_eq_get hlt]
        simp only [if_neg hlow]
        constructor
        · intro h
          exact absurd h (by simp)
        · intro h
          omega
    · rw [if_neg hneg]
      rcases hget : ds.datamapping.get? idx.toNat with _ | m
      · simp only [hget]
        rw [List.get?_eq_none] at hget
        constructor
        · intro _
          right
          omega
        · intro _
          trivial
      · have hlt : idx.toNat < ds.datamapping.length := by
          by_contra hc
          rw [List.get?_eq_none.mpr (by omega)] at hget
          exact Option.noConfusion hget
        simp only [hget, if_neg hneg]
        constructor
        · intro h
          exact absurd h (by simp)
        · intro h
          omega
  · intro hlo hneg
    simp only [Dataset.len] at hlo ⊢
    unfold Dataset.getitem pyEffIndex
    rw [if_pos hneg, if_neg (by omega : ¬ (idx + (ds.datamapping.length : Int) < 0))]

/-- Claim C4 witness: a concrete out-of-range index on which the amended
characterisation yields `IndexError`. -/
theorem C4_witness : Dataset.getitem exDisk2 exDs2 2 = .error .indexError :=
  (C4_index_error_iff exDisk2 exDs2 2).1.mpr (by decide)

/-- Claim C5: for every valid index, the feature tensor of `get_sample` is
the transposed, padded feature slice; if the slice has fewer than
`num_frames` rows, exactly `num_frames - len` rows filled with the silence
scalar `log(config.log_offset)` are appended, yielding exactly `num_frames`
rows; a slice with `num_frames` or more rows passes through unmodified. -/
theorem C5_feature_padding (dsk : Disk) (ds : Dataset) (idx : Int)
    (m : DatasetItem)
    (h0 : 0 ≤ idx) (hm : ds.datamapping.get? idx.toNat = some m) :
    (Dataset.getitem dsk ds idx).toOption.map (fun r => r.1.spec)
      = some ((padRows ds.num_frames (zeroValue ds.config)
          (slicedFeature dsk ds.config m)).transpose)
    ∧ ((slicedFeature dsk ds.config m).nrows < ds.num_frames →
        padRows ds.num_frames (zeroValue ds.config) (slicedFeature dsk ds.config m)
          = Mat.vcat (slicedFeature dsk ds.config m)
              (fullMat (ds.num_frames - (slicedFeature dsk ds.config m).nrows)
                (slicedFeature dsk ds.config m).cols (zeroValue ds.config))
        ∧ (padRows ds.num_frames (zeroValue ds.config)
            (slicedFeature dsk ds.config m)).nrows = ds.num_frames)
    ∧ (ds.num_frames ≤ (slicedFeature dsk ds.config m).nrows →
        padRows ds.num_frames (zeroValue ds.config) (slicedFeature dsk ds.config m)
          = slicedFeature dsk ds.config m) := by
  refine ⟨?_, ?_, ?_⟩
  · rw [getitem_eq_ok dsk ds idx m h0 hm]
    rfl
  · intro hlt
    constructor
    · unfold padRows
      rw [if_pos hlt]
    · unfold padRows
      rw [if_pos hlt]
      simp only [Mat.nrows] at hlt ⊢
      simp [Mat.vcat, fullMat]
      omega
  · intro hge
    unfold padRows
    rw [if_neg (by omega)]

/-- Claim C5 witness: a concrete sample with a 1-row slice and
`num_frames = 3` on which the padded feature equation holds. -/
theorem C5_witness :
    0 ≤ (0 : Int) ∧ exDs2.datamapping.get? (0 : Int).toNat = some exItem2
    ∧ (Dataset.getitem exDisk2 exDs2 0).toOption.map (fun r => r.1.spec)
        = some ((padRows exDs2.num_frames (zeroValue exDs2.config)
            (slicedFeature exDisk2 exDs2.config exItem2)).transpose) :=
  ⟨by decide, by decide,
    (C5_feature_padding exDisk2 exDs2 0 exItem2 (by decide) (by decide)).1⟩

/-- Claim C6: for every valid index, `get_sample` returns a sample and never
fails on account of the span values — the dataset state here is universally
quantified, so negative feature onsets, spans shorter than `num_frames`,
empty spans and ends past the array length are all covered. -/
theorem C6_spans_never_raise (dsk : Disk) (ds : Dataset) (idx : Int)
    (h0 : 0 ≤ idx) (h1 : idx < (ds.len : Int)) :
    ∃ r, Dataset.getitem dsk ds idx = .ok r := by
  have hlt : idx.toNat < ds.datamapping.length := by
    unfold Dataset.len at h1
    omega
  refine ⟨_, getitem_eq_ok dsk ds idx (ds.datamapping.get ⟨idx.toNat, hlt⟩) h0 ?_⟩
  exact List.get?_eq_get hlt

/-- Claim C6 witness: the negative-onset sample of `exDs1` (feature span
`[-3, 5)`, shorter than `num_frames = 128`) yields a sample, not an error. -/
theorem C6_witness :
    0 ≤ (0 : Int) ∧ (0 : Int) < (exDs1.len : Int)
    ∧ ∃ r, Dataset.getitem exDisk1 exDs1 0 = .ok r :=
  ⟨by decide, by decide, C6_spans_never_raise exDisk1 exDs1 0 (by decide) (by decide)⟩

/-- Claim C7 (counterexample): the claim quantifies over every batch whose
samples all share identical shapes, which includes the empty batch; but
`collate_fn` on the empty batch fails (unpacking `zip(*batch)` raises
`ValueError`) instead of returning five tensors with leading dimension 0. -/
theorem C7_empty_batch_counterexample :
    collate_fn ([] : List WindowedSample) = .error .valueError := rfl

/-- Claim C7 (amended): for every non-empty batch, if all samples share
identical per-tensor shapes then `collate_fn` returns the five stacked
tensors, each with leading dimension `N` and the per-sample tensors in batch
order; and if any two samples disagree on some tensor's shape it returns the
shape-mismatch error. -/
theorem C7_collate_batches (batch : List WindowedSample) (h : batch ≠ []) :
    ((∀ s ∈ batch, ∀ t ∈ batch, s.shapes = t.shapes) →
      collate_fn batch
        = .ok ⟨⟨batch.map (·.spec)⟩, ⟨batch.map (·.onset)⟩, ⟨batch.map (·.offset)⟩,
            ⟨batch.map (·.mpe)⟩, ⟨batch.map (·.velocity)⟩⟩
      ∧ (batch.map (·.spec)).length = batch.length
      ∧ (batch.map (·.onset)).length = batch.length
      ∧ (batch.map (·.offset)).length = batch.length
      ∧ (batch.map (·.mpe)).length = batch.length
      ∧ (batch.map (·.velocity)).length = batch.length)
    ∧ ((¬ ∀ s ∈ batch, ∀ t ∈ batch, s.shapes = t.shapes) →
        collate_fn batch = .error .shapeMismatch) := by
  obtain ⟨s0, rest, rfl⟩ := List.exists_cons_of_ne_nil h
  constructor
  · intro huni
    have hs : ∀ t ∈ rest, t.shapes = s0.shapes := fun t ht =>
      huni t (by simp [ht]) s0 (by simp)
    have h1 : stack (s0.spec :: rest.map (·.spec)) = .ok ⟨s0.spec :: rest.map (·.spec)⟩ :=
      stack_ok_of_uniform _ _ (by
        intro mm hmm
        rw [List.mem_map] at hmm
        obtain ⟨t, ht, rfl⟩ := hmm
        exact congrArg (fun p => p.1) (hs t ht))
    have h2 : stack (s0.onset :: rest.map (·.onset)) = .ok ⟨s0.onset :: rest.map (·.onset)⟩ :=
      stack_ok_of_uniform _ _ (by
        intro mm hmm
        rw [List.mem_map] at hmm
        obtain ⟨t, ht, rfl⟩ := hmm
        exact congrArg (fun p => p.2.1) (hs t ht))
    have h3 : stack (s0.offset :: rest.map (·.offset)) = .ok ⟨s0.offset :: rest.map (·.offset)⟩ :=
      stack_ok_of_uniform _ _ (by
        intro mm hmm
        rw [List.mem_map] at hmm
        obtain ⟨t, ht, rfl⟩ := hmm
        exact congrArg (fun p => p.2.2.1) (hs t ht))
    have h4 : stack (s0.mpe :: rest.map (·.mpe)) = .ok ⟨s0.mpe :: rest.map (·.mpe)⟩ :=
      stack_ok_of_uniform _ _ (by
        intro mm hmm
        rw [List.mem_map] at hmm
        obtain ⟨t, ht, rfl⟩ := hmm
        exact congrArg (fun p => p.2.2.2.1) (hs t ht))
    have h5 : stack (s0.velocity :: rest.map (·.velocity))
        = .ok ⟨s0.velocity :: rest.map (·.velocity)⟩ :=
      stack_ok_of_uniform _ _ (by
        intro mm hmm
        rw [List.mem_map] at hmm
        obtain ⟨t, ht, rfl⟩ := hmm
        exact congrArg (fun p => p.2.2.2.2) (hs t ht))
    refine ⟨?_, by simp, by simp, by simp, by simp, by simp⟩
    simp only [collate_fn_cons, h1, h2, h3, h4, h5, List.map_cons]
  · intro hnuni
    rcases stack_cases s0.spec (rest.map (·.spec)) with ⟨hok1, hsh1⟩ | herr1
    · rcases stack_cases s0.onset (rest.map (·.onset)) with ⟨hok2, hsh2⟩ | herr2
      · rcases stack_cases s0.offset (rest.map (·.offset)) with ⟨hok3, hsh3⟩ | herr3
        · rcases stack_cases s0.mpe (rest.map (·.mpe)) with ⟨hok4, hsh4⟩ | herr4
          · rcases stack_cases s0.velocity (rest.map (·.velocity)) with ⟨hok5, hsh5⟩ | herr5
            · exfalso
              apply hnuni
              have hall : ∀ t ∈ s0 :: rest, t.shapes = s0.shapes := by
                intro t ht
                rcases List.mem_cons.mp ht with rfl | ht
                · rfl
                · unfold WindowedSample.shapes
                  have e1 := hsh1 t.spec (List.mem_map_of_mem _ ht)
                  have e2 := hsh2 t.onset (List.mem_map_of_mem _ ht)
                  have e3 := hsh3 t.offset (List.mem_map_of_mem _ ht)
                  have e4 := hsh4 t.mpe (List.mem_map_of_mem _ ht)
                  have e5 := hsh5 t.velocity (List.mem_map_of_mem _ ht)
                  rw [e1, e2, e3, e4, e5]
              intro s hsmem t htmem
              rw [hall s hsmem, hall t htmem]
            · simp only [collate_fn_cons, hok1, hok2, hok3, hok4, herr5]
          · simp only [collate_fn_cons, hok1, hok2, hok3, herr4]
        · simp only [collate_fn_cons, hok1, hok2, herr3]
      · simp only [collate_fn_cons, hok1, herr2]
    · simp only [collate_fn_cons, herr1]

/-- Claim C7 witness: a singleton batch of uniform shape collates to the
five stacked one-item tensors. -/
theorem C7_witness :
    collate_fn [exSample7]
      = .ok ⟨⟨[exSample7].map (·.spec)⟩, ⟨[exSample7].map (·.onset)⟩,
          ⟨[exSample7].map (·.offset)⟩, ⟨[exSample7].map (·.mpe)⟩,
          ⟨[exSample7].map (·.velocity)⟩⟩
    ∧ ([exSample7].map (·.spec)).length = [exSample7].length
    ∧ ([exSample7].map (·.onset)).length = [exSample7].length
    ∧ ([exSample7].map (·.offset)).length = [exSample7].length
    ∧ ([exSample7].map (·.mpe)).length = [exSample7].length
    ∧ ([exSample7].map (·.velocity)).length = [exSample7].length :=
  (C7_collate_batches [exSample7] (by simp)).1 (by simp)

/-- Claim C8: during construction the cache loads the artifact bundle of
each distinct referenced recording exactly once: the number of disk loads
equals the number of distinct basenames in the catalogue, however many
entries reference each recording. -/
theorem C8_cache_loads_each_recording_once (dsk : Disk) (ms : List DatasetItem) :
    loadCount dsk ms = (ms.map (·.basename)).toFinset.card := by
  unfold loadCount initCaches
  rw [initFold_count dsk ms _ _ 0]
  rw [Finset.filter_true_of_mem (by intro x hx; rfl)]
  omega

/-- Claim C9: for every recording referenced by the catalogue, the cached
feature artifact equals the one re-read from disk and every cached label
channel equals its re-read counterpart; consequently resolving a valid
sample through the cache (`getitemCached`) and through the re-read path used
by the source (`getitem`) produce identical outputs. -/
theorem C9_cache_equals_reread (dsk : Disk) (ms : List DatasetItem)
    (cfg : DatasetConfig) (nf : Nat) (b : String) (idx : Int) (m : DatasetItem)
    (hb : b ∈ ms.map (·.basename)) (h0 : 0 ≤ idx)
    (hm : ms.get? idx.toNat = some m) :
    (Dataset.make dsk ms cfg nf).features b = some (dsk.featureFile b)
    ∧ (∀ l ∈ LABELS,
        (cachedDisk (Dataset.make dsk ms cfg nf)).labelFile b l = dsk.labelFile b l)
    ∧ Dataset.getitemCached (Dataset.make dsk ms cfg nf) idx
        = Dataset.getitem dsk (Dataset.make dsk ms cfg nf) idx := by
  obtain ⟨hfeat, hlab⟩ := make_cache_eq dsk ms cfg nf b hb
  refine ⟨hfeat, ?_, ?_⟩
  · intro l hl
    unfold cachedDisk
    simp only [hlab, Option.getD_some]
    rw [labelBundle_lookup dsk b l hl]
    rfl
  · have hmb : m.basename ∈ ms.map (·.basename) :=
      List.mem_map_of_mem _ (List.get?_mem hm)
    obtain ⟨hfeat2, hlab2⟩ := make_cache_eq dsk ms cfg nf m.basename hmb
    have hmds : (Dataset.make dsk ms cfg nf).datamapping.get? idx.toNat = some m := hm
    unfold Dataset.getitemCached
    rw [getitem_eq_ok (cachedDisk (Dataset.make dsk ms cfg nf))
        (Dataset.make dsk ms cfg nf) idx m h0 hmds,
      getitem_eq_ok dsk (Dataset.make dsk ms cfg nf) idx m h0 hmds]
    rw [getitemCore_congr (cachedDisk (Dataset.make dsk ms cfg nf)) dsk
        (Dataset.make dsk ms cfg nf).config (Dataset.make dsk ms cfg nf).num_frames m
        (by unfold cachedDisk; simp [hfeat2])
        (by
          intro l hl
          unfold cachedDisk
          simp only [hlab2, Option.getD_some]
          rw [labelBundle_lookup dsk m.basename l hl]
          rfl)]

/-- Claim C9 witness: on a concrete one-entry catalogue, the cached and
re-read resolutions of sample 0 agree. -/
theorem C9_witness :
    Dataset.getitemCached (Dataset.make exDisk2 [exItem2] exCfg1 3) 0
      = Dataset.getitem exDisk2 (Dataset.make exDisk2 [exItem2] exCfg1 3) 0 :=
  (C9_cache_equals_reread exDisk2 [exItem2] exCfg1 3 "rec" 0 exItem2
    (by decide) (by decide) (by decide)).2.2

/-- Claim C10: for two valid indices whose catalogue entries name the same
recording, `get_sample` returns elementwise-equal onset, offset, mpe and
velocity tensors, whatever the two entries' label spans are — the label
outputs depend only on the basename (and `num_frames`). -/
theorem C10_labels_ignore_span (dsk : Disk) (ds : Dataset) (i j : Int)
    (mi mj : DatasetItem)
    (h0i : 0 ≤ i) (h0j : 0 ≤ j)
    (hmi : ds.datamapping.get? i.toNat = some mi)
    (hmj : ds.datamapping.get? j.toNat = some mj)
    (hb : mi.basename = mj.basename) :
    (Dataset.getitem dsk ds i).toOption.map
        (fun r => (r.1.onset, r.1.offset, r.1.mpe, r.1.velocity))
      = (Dataset.getitem dsk ds j).toOption.map
        (fun r => (r.1.onset, r.1.offset, r.1.mpe, r.1.velocity)) := by
  rw [getitem_eq_ok dsk ds i mi h0i hmi, getitem_eq_ok dsk ds j mj h0j hmj]
  show some ((getitemCore dsk ds.config ds.num_frames mi).1.onset, _, _, _)
    = some ((getitemCore dsk ds.config ds.num_frames mj).1.onset, _, _, _)
  unfold getitemCore
  rw [hb]

/-- Claim C10 witness: two concrete entries on the same recording with label
spans `[0, 2)` and `[5, 9)` receive equal label tensors. -/
theorem C10_witness :
    (Dataset.getitem exDisk2 exDs10 0).toOption.map
        (fun r => (r.1.onset, r.1.offset, r.1.mpe, r.1.velocity))
      = (Dataset.getitem exDisk2 exDs10 1).toOption.map
        (fun r => (r.1.onset, r.1.offset, r.1.mpe, r.1.velocity)) :=
  C10_labels_ignore_span exDisk2 exDs10 0 1 exItem10a exItem10b
    (by decide) (by decide) (by decide) (by decide) (by decide)

end HFT
